import Mathlib

/-!
Verification of the dated-backup synchronization engine of the rust_pocs
repository: the two binaries synchronize_backup and synchronize_partially.

The filesystem is embedded through the observations the Rust code makes of it:
a path either holds nothing, a regular file, a directory, or a symlink whose
final target is a file, a directory, or nothing (dangling).  The two stat
primitives used by the code are modelled separately: symlink_metadata is
link-aware, fs metadata follows the link chain to the final target.  Mutating
actions (remove, copy, rename, rsync invocation) are modelled as emitted
events, in the order the code performs them; the external tool invocations are
assumed to succeed, since every claim under study is about the planning and
checking stages that run before them.
-/

namespace RustPocs

/-- Result of a stat call: the three predicates the Rust code reads from
std fs Metadata. -/
structure Meta where
  is_file : Bool
  is_dir : Bool
  is_symlink : Bool
deriving DecidableEq

/-- State of an existing directory entry, as observable through the two stat
primitives.  A symlink is summarized by the kind of its final target. -/
inductive NodeState where
  | file
  | dir
  | symlinkToFile
  | symlinkToDir
  | danglingSymlink
deriving DecidableEq

/-- Link-aware stat (Rust symlink_metadata) of an existing entry. -/
def symlinkMetadata : NodeState → Meta
  | .file => ⟨true, false, false⟩
  | .dir => ⟨false, true, false⟩
  | .symlinkToFile => ⟨false, false, true⟩
  | .symlinkToDir => ⟨false, false, true⟩
  | .danglingSymlink => ⟨false, false, true⟩

/-- Link-following stat (Rust fs metadata) of an existing entry; none when the
link chain does not resolve. -/
def followMetadata : NodeState → Option Meta
  | .file => some ⟨true, false, false⟩
  | .dir => some ⟨false, true, false⟩
  | .symlinkToFile => some ⟨true, false, false⟩
  | .symlinkToDir => some ⟨false, true, false⟩
  | .danglingSymlink => none

/-- Rust Path join restricted to the relative second operands that reach it in
the flows under study. -/
def joinPath (a b : String) : String := a ++ "/" ++ b

end RustPocs

namespace Psync

open RustPocs

/-- Command-line subpath argument: its text and whether Path is_relative is
false on it. -/
structure Subpath where
  name : String
  is_absolute : Bool
deriving DecidableEq

/-- Errors of the synchronize_partially flow, named after the bail and context
messages of the source. -/
inductive PsyncError where
  | pathIsAbsolute (path : String)
  | failedToReadMetadata (path : String)
  | notADirectory (path : String)
  | brokenSymlink (path : String)
  | symlinkTargetIsFile (path : String)
  | symlinkTargetIsDir (path : String)
deriving DecidableEq

/-- The four planned operation kinds (Rust enum Operation). -/
inductive Operation where
  | SynchronizeDir
  | RemoveDestFileAndCopyDir
  | CopyFile
  | RemoveDestDirAndCopyFile
deriving DecidableEq

/-- A planned action (Rust struct Action). -/
structure Action where
  src_path : String
  dst_path : String
  operation : Operation
deriving DecidableEq

/-- Observations of the filesystem made by the synchronize_partially flow:
the state at the two command-line roots and, for each subpath, the state at
the joined source and destination paths. -/
structure PsyncFs where
  srcRootState : Option NodeState
  dstRootState : Option NodeState
  srcStateOf : String → Option NodeState
  dstStateOf : String → Option NodeState

/-- Embedding of check_is_relative. -/
def check_is_relative (sp : Subpath) : Except PsyncError Unit :=
  if sp.is_absolute then .error (.pathIsAbsolute sp.name) else .ok ()

/-- Embedding of the try_for_each loop applying check_is_relative. -/
def check_subpaths_are_relative : List Subpath → Except PsyncError Unit
  | [] => .ok ()
  | sp :: rest =>
    match check_is_relative sp with
    | .error e => .error e
    | .ok _ => check_subpaths_are_relative rest

/-- Embedding of check_is_directory: fs metadata follows symlinks, its failure
covers both an absent path and a broken link chain. -/
def check_is_directory (path : String) (st : Option NodeState) : Except PsyncError Unit :=
  match st.bind followMetadata with
  | none => .error (.failedToReadMetadata path)
  | some m => if m.is_dir then .ok () else .error (.notADirectory path)

/-- Embedding of check_dst_path_is_ok, keeping the early-return structure of
the source: link-aware stat first, then a following stat on symlinks only. -/
def check_dst_path_is_ok (src_is_dir : Bool) (dst_path : String) (dst : Option NodeState) :
    Except PsyncError Operation :=
  if src_is_dir then
    match dst with
    | some st =>
      if (symlinkMetadata st).is_file then .ok .RemoveDestFileAndCopyDir
      else if (symlinkMetadata st).is_symlink then
        match followMetadata st with
        | none => .error (.brokenSymlink dst_path)
        | some m =>
          if m.is_file then .error (.symlinkTargetIsFile dst_path)
          else .ok .SynchronizeDir
      else .ok .SynchronizeDir
    | none => .ok .SynchronizeDir
  else
    match dst with
    | some st =>
      if (symlinkMetadata st).is_dir then .ok .RemoveDestDirAndCopyFile
      else if (symlinkMetadata st).is_symlink then
        match followMetadata st with
        | none => .error (.brokenSymlink dst_path)
        | some m =>
          if m.is_dir then .error (.symlinkTargetIsDir dst_path)
          else .ok .CopyFile
      else .ok .CopyFile
    | none => .ok .CopyFile

/-- Embedding of check_all_synchronizations_seem_possible: the iterator
collect over Result stops at the first error and otherwise keeps order. -/
def check_all_synchronizations_seem_possible (src_root dst_root : String) (fs : PsyncFs) :
    List Subpath → Except PsyncError (List Action)
  | [] => .ok []
  | sp :: rest =>
    let src_path := joinPath src_root sp.name
    match (fs.srcStateOf sp.name).bind followMetadata with
    | none => .error (.failedToReadMetadata src_path)
    | some m =>
      let dst_path := joinPath dst_root sp.name
      match check_dst_path_is_ok m.is_dir dst_path (fs.dstStateOf sp.name) with
      | .error e => .error e
      | .ok op =>
        match check_all_synchronizations_seem_possible src_root dst_root fs rest with
        | .error e => .error e
        | .ok acts => .ok (⟨src_path, dst_path, op⟩ :: acts)

/-- A filesystem-mutating action performed by the execution phase. -/
inductive MutEvent where
  | removeFile (path : String)
  | removeDir (path : String)
  | copyFile (src dst : String)
  | syncDir (src dst : String)
deriving DecidableEq

/-- Events emitted by executing one action, in source order: the conflicting
destination entry is removed first when the operation asks for it. -/
def execAction (a : Action) : List MutEvent :=
  match a.operation with
  | .SynchronizeDir => [.syncDir a.src_path a.dst_path]
  | .RemoveDestFileAndCopyDir => [.removeFile a.dst_path, .syncDir a.src_path a.dst_path]
  | .CopyFile => [.copyFile a.src_path a.dst_path]
  | .RemoveDestDirAndCopyFile => [.removeDir a.dst_path, .copyFile a.src_path a.dst_path]

/-- Events of the sequential execution loop over the planned batch. -/
def execActions : List Action → List MutEvent
  | [] => []
  | a :: rest => execAction a ++ execActions rest

/-- Embedding of work for synchronize_partially: the checks run in source
order, and the mutation events are produced only after the whole batch has
been planned.  The pair holds the emitted mutation events and the outcome. -/
def work (src_root dst_root : String) (fs : PsyncFs) (subpaths : List Subpath) :
    List MutEvent × Except PsyncError Unit :=
  match check_subpaths_are_relative subpaths with
  | .error e => ([], .error e)
  | .ok _ =>
    match check_is_directory src_root fs.srcRootState with
    | .error e => ([], .error e)
    | .ok _ =>
      match check_is_directory dst_root fs.dstRootState with
      | .error e => ([], .error e)
      | .ok _ =>
        match check_all_synchronizations_seem_possible src_root dst_root fs subpaths with
        | .error e => ([], .error e)
        | .ok actions => (execActions actions, .ok ())

end Psync

namespace Backup

open RustPocs

/-- Timestamp as the backup flow reads it from the local clock.  The second
field is carried to show the rendered suffix never depends on it. -/
structure DateTime where
  year : Nat
  month : Nat
  day : Nat
  hour : Nat
  minute : Nat
  second : Nat
deriving DecidableEq

/-- Two-digit zero-padded rendering, as the time crate formats a component
whose description item has default padding (month, day, hour, minute). -/
def pad2 (n : Nat) : String :=
  if n < 10 then "0" ++ Nat.repr n else Nat.repr n

/-- Four-digit zero-padded rendering of the year item. -/
def pad4 (n : Nat) : String :=
  if n < 10 then "000" ++ Nat.repr n
  else if n < 100 then "00" ++ Nat.repr n
  else if n < 1000 then "0" ++ Nat.repr n
  else Nat.repr n

/-- Embedding of the format description used by get_final_dst_path. -/
def backupSuffix (now : DateTime) : String :=
  "_" ++ pad4 now.year ++ "-" ++ pad2 now.month ++ "-" ++ pad2 now.day
    ++ "-" ++ pad2 now.hour ++ "h" ++ pad2 now.minute

/-- Name of the final destination entry built by get_final_dst_path. -/
def get_final_dst_name (src_dir_name : String) (now : DateTime) : String :=
  src_dir_name ++ backupSuffix now

/-- Embedding of get_final_dst_path, with the destination directory path kept
as its component list: the function pushes one new component. -/
def get_final_dst_path (src_dir_name : String) (dst_dir_path : List String)
    (now : DateTime) : List String :=
  dst_dir_path ++ [get_final_dst_name src_dir_name now]

/-- Errors of the synchronize_backup flow, named after the bail and context
messages of the source. -/
inductive BackupError where
  | srcHasNoName (path : String)
  | failedToReadSrcMetadata (path : String)
  | srcNotADirectory (path : String)
  | finalDstExistsButNotADirectory (name : String)
  | failedToReadDstDir
  | severalCandidates (names : List String)
deriving DecidableEq

/-- A directory entry of the destination directory: its name and its
on-disk state. -/
structure BkDirEntry where
  name : String
  state : NodeState
deriving DecidableEq

/-- Observations of the filesystem made by the synchronize_backup flow: the
state at the source path and the listing of the destination directory (none
when read_dir fails: the destination is absent, a file, or a broken link). -/
structure BackupFs where
  srcState : Option NodeState
  dstEntries : Option (List BkDirEntry)

/-- Embedding of check_src_dir_path_is_ok.  The file_name computation of the
camino path library is carried as an observation (none when the path ends in
a parent component or has no final component). -/
def check_src_dir_path_is_ok (src_dir_path : String) (src_file_name : Option String)
    (srcState : Option NodeState) : Except BackupError String :=
  match src_file_name with
  | none => .error (.srcHasNoName src_dir_path)
  | some name =>
    match srcState.bind followMetadata with
    | none => .error (.failedToReadSrcMetadata src_dir_path)
    | some m =>
      if m.is_dir then .ok name else .error (.srcNotADirectory src_dir_path)

/-- Embedding of check_is_directory_or_does_not_exist: a failing link-aware
stat is treated as absence and accepted; an existing entry must itself be a
directory. -/
def check_is_directory_or_does_not_exist (st : Option NodeState) (name : String) :
    Except BackupError Unit :=
  match st with
  | some s =>
    if (symlinkMetadata s).is_dir then .ok ()
    else .error (.finalDstExistsButNotADirectory name)
  | none => .ok ()

/-- Link-aware state of the entry bearing a given name in the destination
listing; none when the listing is unavailable or no entry has that name. -/
def lookupEntry (entries : Option (List BkDirEntry)) (name : String) : Option NodeState :=
  ((entries.getD []).find? fun e => e.name == name).map BkDirEntry.state

/-- Shape test for the 17 trailing characters demanded by the candidate
regex.  The tail of the pattern is fixed-width, so a full match of the regex
on a name is exactly: the name has at least 17 characters and its last 17
characters pass this test; the single capture group is then forced to be the
remaining leading characters. -/
def datedSuffixMatch : List Char → Bool
  | [c0, y1, y2, y3, y4, c5, mo1, mo2, c8, d1, d2, c11, h1, h2, c14, mi1, mi2] =>
    c0 == '_' && y1.isDigit && y2.isDigit && y3.isDigit && y4.isDigit &&
    c5 == '-' && mo1.isDigit && mo2.isDigit &&
    c8 == '-' && d1.isDigit && d2.isDigit &&
    c11 == '-' && h1.isDigit && h2.isDigit &&
    c14 == 'h' && mi1.isDigit && mi2.isDigit
  | _ => false

/-- Capture group of the candidate regex on a name, when the regex matches. -/
def datedNameCapture (name : String) : Option String :=
  let cs := name.data
  if 17 ≤ cs.length ∧ datedSuffixMatch (cs.drop (cs.length - 17)) = true then
    some ⟨cs.take (cs.length - 17)⟩
  else none

/-- Embedding of is_candidate: the link-aware metadata of the entry must
confirm a directory, and the regex capture must equal the source base name. -/
def is_candidate (e : BkDirEntry) (src_dir_name : String) : Bool :=
  if !(symlinkMetadata e.state).is_dir then false
  else
    match datedNameCapture e.name with
    | some cap => cap == src_dir_name
    | none => false

/-- Names kept by the candidate scan, in listing order. -/
def candidateNames (src_dir_name : String) (entries : List BkDirEntry) : List String :=
  (entries.filter fun e => is_candidate e src_dir_name).map BkDirEntry.name

/-- Embedding of get_candidates. -/
def get_candidates (src_dir_name : String) (dstEntries : Option (List BkDirEntry)) :
    Except BackupError (List String) :=
  match dstEntries with
  | none => .error .failedToReadDstDir
  | some entries => .ok (candidateNames src_dir_name entries)

/-- A filesystem-mutating action performed by the backup flow. -/
inductive BkEvent where
  | rename (oldName newName : String)
  | syncDir (srcPath dstName : String)
deriving DecidableEq

/-- Embedding of maybe_rename_a_candidate_to_final_dst, returning the rename
events it performs. -/
def maybe_rename_a_candidate_to_final_dst (src_dir_name final_dst_name : String)
    (dstEntries : Option (List BkDirEntry)) : Except BackupError (List BkEvent) :=
  match get_candidates src_dir_name dstEntries with
  | .error e => .error e
  | .ok candidates =>
    if candidates.length < 2 then
      match candidates.head? with
      | some c => .ok [.rename c final_dst_name]
      | none => .ok []
    else .error (.severalCandidates candidates)

/-- Embedding of work for synchronize_backup: source check, final destination
check, candidate resolution with optional rename, then the directory sync.
The pair holds the emitted mutation events and the outcome. -/
def work (src_dir_path : String) (src_file_name : Option String) (fs : BackupFs)
    (now : DateTime) : List BkEvent × Except BackupError Unit :=
  match check_src_dir_path_is_ok src_dir_path src_file_name fs.srcState with
  | .error e => ([], .error e)
  | .ok src_dir_name =>
    let final_dst_name := get_final_dst_name src_dir_name now
    match check_is_directory_or_does_not_exist
        (lookupEntry fs.dstEntries final_dst_name) final_dst_name with
    | .error e => ([], .error e)
    | .ok _ =>
      match maybe_rename_a_candidate_to_final_dst src_dir_name final_dst_name
          fs.dstEntries with
      | .error e => ([], .error e)
      | .ok renameEvents => (renameEvents ++ [.syncDir src_dir_path final_dst_name], .ok ())

end Backup

deriving instance DecidableEq for Except

set_option maxRecDepth 8000

namespace Psync

open RustPocs

/-- Helper: when the state at a prefix path is absent, a file, a symlink to a
file, or a broken symlink, check_is_directory reports an error. -/
lemma check_is_directory_fails (p : String) (st : Option NodeState)
    (h : st ∈ ([none, some .file, some .symlinkToFile, some .danglingSymlink] :
      List (Option NodeState))) :
    ∃ e, check_is_directory p st = .error e := by
  fin_cases h
  · exact ⟨.failedToReadMetadata p, rfl⟩
  · exact ⟨.notADirectory p, rfl⟩
  · exact ⟨.notADirectory p, rfl⟩
  · exact ⟨.failedToReadMetadata p, rfl⟩

/-- Helper: the relativity pass over the subpath list reports an error as soon
as the list holds an absolute subpath. -/
lemma check_subpaths_are_relative_fails (sps : List Subpath)
    (h : ∃ sp ∈ sps, sp.is_absolute = true) :
    ∃ e, check_subpaths_are_relative sps = .error e := by
  induction sps with
  | nil => simp at h
  | cons sp rest ih =>
    by_cases hsp : sp.is_absolute
    · exact ⟨.pathIsAbsolute sp.name,
        by simp [check_subpaths_are_relative, check_is_relative, hsp]⟩
    · rcases h with ⟨x, hx, habs⟩
      rcases List.mem_cons.mp hx with rfl | hmem
      · exact absurd habs (by simpa using hsp)
      · obtain ⟨e, he⟩ := ih ⟨x, hmem, habs⟩
        exact ⟨e, by simp [check_subpaths_are_relative, check_is_relative, hsp, he]⟩

/-- Claim C1: in the multi-subpath flow the planned operation for a subpath is
a pure function of the source kind and the current destination state; for a
directory source an absent or directory destination plans SynchronizeDir and a
file destination plans RemoveDestFileAndCopyDir; for a file source an absent
or file destination plans CopyFile and a directory destination plans
RemoveDestDirAndCopyFile. -/
theorem psync_plan_operation_table (p : String) :
    check_dst_path_is_ok true p none = .ok .SynchronizeDir
    ∧ check_dst_path_is_ok true p (some .dir) = .ok .SynchronizeDir
    ∧ check_dst_path_is_ok true p (some .file) = .ok .RemoveDestFileAndCopyDir
    ∧ check_dst_path_is_ok false p none = .ok .CopyFile
    ∧ check_dst_path_is_ok false p (some .file) = .ok .CopyFile
    ∧ check_dst_path_is_ok false p (some .dir) = .ok .RemoveDestDirAndCopyFile :=
  ⟨rfl, rfl, rfl, rfl, rfl, rfl⟩

/-- Claim C4, counterexample: with a dangling symlink at the destination of a
subpath, planning does not proceed; the flow stops with a broken-symlink error
and the per-subpath planner returns neither SynchronizeDir nor CopyFile. -/
theorem psync_dangling_symlink_counterexample :
    Psync.work "foo" "bar"
        ⟨some .dir, some .dir, fun _ => some .dir, fun _ => some .danglingSymlink⟩
        [⟨"colors", false⟩]
      = ([], .error (.brokenSymlink "bar/colors"))
    ∧ check_dst_path_is_ok true "bar/colors" (some .danglingSymlink) ≠ .ok .SynchronizeDir
    ∧ check_dst_path_is_ok false "bar/colors" (some .danglingSymlink) ≠ .ok .CopyFile :=
  ⟨by decide, by decide, by decide⟩

/-- Claim C4, amended: when the destination of a subpath is a dangling
symlink, planning fails with a broken-symlink error, both when the source is a
directory and when it is a file. -/
theorem psync_dangling_symlink_is_hard_error (p : String) :
    check_dst_path_is_ok true p (some .danglingSymlink) = .error (.brokenSymlink p)
    ∧ check_dst_path_is_ok false p (some .danglingSymlink) = .error (.brokenSymlink p) :=
  ⟨rfl, rfl⟩

/-- Claim C5: a destination symlink whose final target kind conflicts with the
source kind is a hard error, while a symlink whose final target matches the
source kind proceeds with the plain non-removing operation. -/
theorem psync_symlink_target_mismatch (p : String) :
    check_dst_path_is_ok true p (some .symlinkToFile) = .error (.symlinkTargetIsFile p)
    ∧ check_dst_path_is_ok false p (some .symlinkToDir) = .error (.symlinkTargetIsDir p)
    ∧ check_dst_path_is_ok true p (some .symlinkToDir) = .ok .SynchronizeDir
    ∧ check_dst_path_is_ok false p (some .symlinkToFile) = .ok .CopyFile :=
  ⟨rfl, rfl, rfl, rfl⟩

/-- Claim C3: when the subpath list holds an absolute subpath, or the planning
pass fails on any subpath, the whole flow fails and emits no mutation event. -/
theorem psync_planning_is_atomic (src_root dst_root : String) (fs : PsyncFs)
    (sps : List Subpath)
    (h : (∃ sp ∈ sps, sp.is_absolute = true) ∨
      ∃ e, check_all_synchronizations_seem_possible src_root dst_root fs sps = .error e) :
    (Psync.work src_root dst_root fs sps).1 = []
    ∧ ∃ e, (Psync.work src_root dst_root fs sps).2 = .error e := by
  cases hrel : check_subpaths_are_relative sps with
  | error e => exact ⟨by simp [Psync.work, hrel], e, by simp [Psync.work, hrel]⟩
  | ok u =>
    cases hs : check_is_directory src_root fs.srcRootState with
    | error e => exact ⟨by simp [Psync.work, hrel, hs], e, by simp [Psync.work, hrel, hs]⟩
    | ok _ =>
      cases hd : check_is_directory dst_root fs.dstRootState with
      | error e =>
        exact ⟨by simp [Psync.work, hrel, hs, hd], e, by simp [Psync.work, hrel, hs, hd]⟩
      | ok _ =>
        cases hall : check_all_synchronizations_seem_possible src_root dst_root fs sps with
        | error e =>
          exact ⟨by simp [Psync.work, hrel, hs, hd, hall], e,
            by simp [Psync.work, hrel, hs, hd, hall]⟩
        | ok acts =>
          rcases h with habs | ⟨e, he⟩
          · obtain ⟨e, he⟩ := check_subpaths_are_relative_fails sps habs
            rw [hrel] at he
            simp at he
          · rw [hall] at he
            simp at he

/-- Witness for claim C3. -/
theorem psync_planning_is_atomic_witness :
    (Psync.work "foo" "bar" ⟨some .dir, some .dir, fun _ => none, fun _ => none⟩
      [⟨"/picture", true⟩]).1 = []
    ∧ ∃ e, (Psync.work "foo" "bar" ⟨some .dir, some .dir, fun _ => none, fun _ => none⟩
      [⟨"/picture", true⟩]).2 = .error e :=
  psync_planning_is_atomic "foo" "bar" _ _ (Or.inl ⟨⟨"/picture", true⟩, by simp, rfl⟩)

/-- Claim C9: when either command-line root does not resolve to an existing
directory after following symlinks, the flow fails and emits no mutation
event, whatever the subpath list holds, including the empty list. -/
theorem psync_roots_must_be_directories (src_root dst_root : String) (fs : PsyncFs)
    (sps : List Subpath)
    (h : fs.srcRootState ∈ ([none, some .file, some .symlinkToFile, some .danglingSymlink] :
        List (Option NodeState))
      ∨ fs.dstRootState ∈ ([none, some .file, some .symlinkToFile, some .danglingSymlink] :
        List (Option NodeState))) :
    (Psync.work src_root dst_root fs sps).1 = []
    ∧ ∃ e, (Psync.work src_root dst_root fs sps).2 = .error e := by
  cases hrel : check_subpaths_are_relative sps with
  | error e => exact ⟨by simp [Psync.work, hrel], e, by simp [Psync.work, hrel]⟩
  | ok u =>
    rcases h with h | h
    · obtain ⟨e, he⟩ := check_is_directory_fails src_root fs.srcRootState h
      exact ⟨by simp [Psync.work, hrel, he], e, by simp [Psync.work, hrel, he]⟩
    · cases hs : check_is_directory src_root fs.srcRootState with
      | error e => exact ⟨by simp [Psync.work, hrel, hs], e, by simp [Psync.work, hrel, hs]⟩
      | ok _ =>
        obtain ⟨e, he⟩ := check_is_directory_fails dst_root fs.dstRootState h
        exact ⟨by simp [Psync.work, hrel, hs, he], e, by simp [Psync.work, hrel, hs, he]⟩

/-- Witness for claim C9: a source root that is a symlink to a file, with an
empty subpath list. -/
theorem psync_roots_must_be_directories_witness :
    (Psync.work "foo" "bar" ⟨some .symlinkToFile, some .dir, fun _ => none, fun _ => none⟩
      []).1 = []
    ∧ ∃ e, (Psync.work "foo" "bar"
      ⟨some .symlinkToFile, some .dir, fun _ => none, fun _ => none⟩ []).2 = .error e :=
  psync_roots_must_be_directories "foo" "bar" _ _ (Or.inl (by decide))

/-- Claim C10: with an empty subpath list and both roots resolving to existing
directories, the flow succeeds and emits no mutation event. -/
theorem psync_empty_batch_is_noop (src_root dst_root : String) (fs : PsyncFs)
    (hsrc : fs.srcRootState = some .dir ∨ fs.srcRootState = some .symlinkToDir)
    (hdst : fs.dstRootState = some .dir ∨ fs.dstRootState = some .symlinkToDir) :
    Psync.work src_root dst_root fs [] = ([], .ok ()) := by
  rcases hsrc with h1 | h1 <;> rcases hdst with h2 | h2 <;>
    simp [Psync.work, check_subpaths_are_relative, check_is_directory, h1, h2,
      followMetadata, check_all_synchronizations_seem_possible, execActions]

/-- Witness for claim C10. -/
theorem psync_empty_batch_is_noop_witness :
    Psync.work "foo" "bar" ⟨some .dir, some .symlinkToDir, fun _ => none, fun _ => none⟩ []
      = ([], .ok ()) :=
  psync_empty_batch_is_noop "foo" "bar" _ (Or.inl rfl) (Or.inr rfl)

end Psync

namespace Backup

open RustPocs

/-- Claim C2: when the source check passes and the final destination check
passes, a destination listing holding two or more candidates makes the flow
fail with the ambiguity error listing them, with no rename and no sync
event emitted. -/
theorem backup_ambiguous_candidates (p : String) (fname : Option String) (fs : BackupFs)
    (now : DateTime) (n : String) (entries : List BkDirEntry)
    (hsrc : check_src_dir_path_is_ok p fname fs.srcState = .ok n)
    (hentries : fs.dstEntries = some entries)
    (hfinal : check_is_directory_or_does_not_exist
      (lookupEntry fs.dstEntries (get_final_dst_name n now)) (get_final_dst_name n now)
      = .ok ())
    (hcand : 2 ≤ (candidateNames n entries).length) :
    Backup.work p fname fs now
      = ([], .error (.severalCandidates (candidateNames n entries))) := by
  have hnot : ¬ (candidateNames n entries).length < 2 := by omega
  rw [hentries] at hfinal
  simp [Backup.work, hsrc, hfinal, maybe_rename_a_candidate_to_final_dst,
    get_candidates, hentries, hnot]

/-- Witness for claim C2: two dated directory candidates for the base name. -/
theorem backup_ambiguous_candidates_witness :
    Backup.work "foo/colors" (some "colors")
        ⟨some .dir, some [⟨"colors_2022-08-09-10h11", .dir⟩,
          ⟨"colors_2022-09-10-11h12", .dir⟩]⟩ ⟨2022, 12, 13, 14, 15, 16⟩
      = ([], .error (.severalCandidates
          (candidateNames "colors" [⟨"colors_2022-08-09-10h11", .dir⟩,
            ⟨"colors_2022-09-10-11h12", .dir⟩]))) :=
  backup_ambiguous_candidates "foo/colors" (some "colors") _ _ "colors" _
    (by decide) rfl (by decide) (by decide)

/-- Claim C7: when an entry exists at the exact final destination path and is
not itself a directory, the flow fails with the hard error right after the
source check, with no rename and no sync event emitted, whatever the rest of
the destination listing holds. -/
theorem backup_final_dst_must_be_dir_or_absent (p : String) (fname : Option String)
    (fs : BackupFs) (now : DateTime) (n : String) (st : NodeState)
    (hsrc : check_src_dir_path_is_ok p fname fs.srcState = .ok n)
    (hlook : lookupEntry fs.dstEntries (get_final_dst_name n now) = some st)
    (hnotdir : st ≠ .dir) :
    Backup.work p fname fs now
      = ([], .error (.finalDstExistsButNotADirectory (get_final_dst_name n now))) := by
  have hdir : (symlinkMetadata st).is_dir = false := by
    cases st <;> first | rfl | exact absurd rfl hnotdir
  simp [Backup.work, hsrc, check_is_directory_or_does_not_exist, hlook, hdir]

/-- Witness for claim C7: a symlink to a directory sits at the final
destination path, next to an otherwise renameable candidate. -/
theorem backup_final_dst_must_be_dir_or_absent_witness :
    Backup.work "foo/colors" (some "colors")
        ⟨some .dir, some [⟨"colors_2022-12-13-14h15", .symlinkToDir⟩,
          ⟨"colors_2022-08-09-10h11", .dir⟩]⟩ ⟨2022, 12, 13, 14, 15, 16⟩
      = ([], .error (.finalDstExistsButNotADirectory
          (get_final_dst_name "colors" ⟨2022, 12, 13, 14, 15, 16⟩))) :=
  backup_final_dst_must_be_dir_or_absent "foo/colors" (some "colors") _ _ "colors"
    .symlinkToDir (by decide) (by decide) (by decide)

/-- Rendering of a number as its two low decimal digits, following the words
of the spec on zero padding. -/
def specPad2 (n : Nat) : String :=
  ⟨[Nat.digitChar (n / 10 % 10), Nat.digitChar (n % 10)]⟩

/-- Rendering of a number as its four low decimal digits, following the words
of the spec on zero padding. -/
def specPad4 (n : Nat) : String :=
  ⟨[Nat.digitChar (n / 1000 % 10), Nat.digitChar (n / 100 % 10),
    Nat.digitChar (n / 10 % 10), Nat.digitChar (n % 10)]⟩

/-- Modelled from the spec: the suffix renders the timestamp as
_YYYY-MM-DD-HHhMM with zero-padded decimal fields and no seconds. -/
def specSuffix (t : DateTime) : String :=
  "_" ++ specPad4 t.year ++ "-" ++ specPad2 t.month ++ "-" ++ specPad2 t.day
    ++ "-" ++ specPad2 t.hour ++ "h" ++ specPad2 t.minute

/-- Digit list of the decimal rendering of a number, high digit first. -/
def decDigits (n : Nat) : List Char :=
  if n < 10 then [Nat.digitChar n]
  else decDigits (n / 10) ++ [Nat.digitChar (n % 10)]
termination_by n
decreasing_by
  exact Nat.div_lt_self (by omega) (by omega)

/-- Helper: one-digit unfolding of decDigits. -/
lemma decDigits_of_lt (n : Nat) (h : n < 10) : decDigits n = [Nat.digitChar n] := by
  conv_lhs => rw [decDigits]
  simp [h]

/-- Helper: multi-digit unfolding of decDigits. -/
lemma decDigits_of_ge (n : Nat) (h : ¬ n < 10) :
    decDigits n = decDigits (n / 10) ++ [Nat.digitChar (n % 10)] := by
  conv_lhs => rw [decDigits]
  simp [h]

/-- Helper: the fueled digit loop behind Nat repr produces decDigits when the
fuel is large enough. -/
lemma toDigitsCore_eq_decDigits :
    ∀ fuel n ds, n < fuel → Nat.toDigitsCore 10 fuel n ds = decDigits n ++ ds := by
  intro fuel
  induction fuel with
  | zero => intro n ds h; omega
  | succ f ih =>
    intro n ds h
    by_cases h10 : n / 10 = 0
    · have hn : n < 10 := by omega
      rw [Nat.toDigitsCore]
      simp only [h10, if_true, reduceIte]
      rw [decDigits_of_lt n hn]
      simp [Nat.mod_eq_of_lt hn]
    · have hn : ¬ n < 10 := by omega
      have hlt : n / 10 < f := by
        have := Nat.div_lt_self (show 0 < n by omega) (show 1 < 10 by omega)
        omega
      rw [Nat.toDigitsCore]
      simp only [h10, if_false, reduceIte]
      rw [ih (n / 10) _ hlt, decDigits_of_ge n hn]
      simp [List.append_assoc]

/-- Helper: the decimal rendering of a number is its digit list. -/
lemma repr_eq_decDigits (n : Nat) : Nat.repr n = ⟨decDigits n⟩ := by
  show (Nat.toDigits 10 n).asString = _
  rw [Nat.toDigits, toDigitsCore_eq_decDigits (n + 1) n [] (by omega)]
  simp [List.asString]

/-- Helper: the two-digit padded rendering agrees with the digit spelling on
every value a calendar field can take. -/
lemma pad2_eq_specPad2 : ∀ n, n < 100 → pad2 n = specPad2 n := by
  intro n h
  by_cases h10 : n < 10
  · have hd : n / 10 % 10 = 0 := by omega
    have hm : n % 10 = n := by omega
    rw [pad2, if_pos h10, repr_eq_decDigits, decDigits_of_lt n h10, specPad2, hd, hm]
    rfl
  · have e1 : n / 10 < 10 := by omega
    have hm : n / 10 % 10 = n / 10 := by omega
    rw [pad2, if_neg h10, repr_eq_decDigits, decDigits_of_ge n h10,
      decDigits_of_lt _ e1, specPad2, hm]
    rfl

/-- Helper: the four-digit padded rendering agrees with the digit spelling on
every value below ten thousand. -/
lemma pad4_eq_specPad4 (n : Nat) (h : n < 10000) : pad4 n = specPad4 n := by
  by_cases h1 : n < 10
  · have e1 : n / 10 % 10 = 0 := by omega
    have e2 : n / 100 % 10 = 0 := by omega
    have e3 : n / 1000 % 10 = 0 := by omega
    have e4 : n % 10 = n := by omega
    rw [pad4, if_pos h1, repr_eq_decDigits, decDigits_of_lt n h1, specPad4, e1, e2, e3, e4]
    rfl
  · by_cases h2 : n < 100
    · have e1 : n / 10 < 10 := by omega
      have e2 : n / 100 % 10 = 0 := by omega
      have e3 : n / 1000 % 10 = 0 := by omega
      have e5 : n / 10 % 10 = n / 10 := by omega
      rw [pad4, if_neg h1, if_pos h2, repr_eq_decDigits, decDigits_of_ge n h1,
        decDigits_of_lt _ e1, specPad4, e2, e3, e5]
      rfl
    · by_cases h3 : n < 1000
      · have e1 : ¬ n / 10 < 10 := by omega
        have e6 : n / 10 / 10 = n / 100 := by omega
        have e2 : n / 100 < 10 := by omega
        have e3 : n / 1000 % 10 = 0 := by omega
        rw [pad4, if_neg h1, if_neg h2, if_pos h3, repr_eq_decDigits,
          decDigits_of_ge n h1, decDigits_of_ge _ e1, e6, decDigits_of_lt _ e2,
          specPad4, e3, show n / 100 % 10 = n / 100 by omega]
        rfl
      · have e1 : ¬ n / 10 < 10 := by omega
        have e6 : n / 10 / 10 = n / 100 := by omega
        have e2 : ¬ n / 100 < 10 := by omega
        have e8 : n / 100 / 10 = n / 1000 := by omega
        have e9 : n / 1000 < 10 := by omega
        rw [pad4, if_neg h1, if_neg h2, if_neg h3, repr_eq_decDigits,
          decDigits_of_ge n h1, decDigits_of_ge _ e1, e6, decDigits_of_ge _ e2,
          e8, decDigits_of_lt _ e9, specPad4,
          show n / 1000 % 10 = n / 1000 by omega]
        rfl

/-- Claim C8: the final destination path joins the destination directory with
the base name concatenated with the zero-padded suffix _YYYY-MM-DD-HHhMM; the
suffix never reads the seconds; at 2022-12-13 14:15:16 the base name colors
yields colors_2022-12-13-14h15. -/
theorem backup_final_name_format (nme : String) (dst : List String) (t : DateTime)
    (hy : t.year < 10000) (hmo : t.month < 100) (hd : t.day < 100)
    (hh : t.hour < 100) (hmi : t.minute < 100) :
    get_final_dst_path nme dst t = dst ++ [nme ++ specSuffix t]
    ∧ (∀ s, backupSuffix ⟨t.year, t.month, t.day, t.hour, t.minute, s⟩ = backupSuffix t)
    ∧ get_final_dst_name "colors" ⟨2022, 12, 13, 14, 15, 16⟩ = "colors_2022-12-13-14h15" := by
  refine ⟨?_, fun s => rfl, by decide⟩
  simp [get_final_dst_path, get_final_dst_name, backupSuffix, specSuffix,
    pad4_eq_specPad4 t.year hy, pad2_eq_specPad2 t.month hmo, pad2_eq_specPad2 t.day hd,
    pad2_eq_specPad2 t.hour hh, pad2_eq_specPad2 t.minute hmi]

/-- Witness for claim C8. -/
theorem backup_final_name_format_witness :
    get_final_dst_path "colors" ["bar"] ⟨2022, 12, 13, 14, 15, 16⟩
      = ["bar"] ++ ["colors" ++ specSuffix ⟨2022, 12, 13, 14, 15, 16⟩]
    ∧ (∀ s, backupSuffix ⟨2022, 12, 13, 14, 15, s⟩
        = backupSuffix ⟨2022, 12, 13, 14, 15, 16⟩)
    ∧ get_final_dst_name "colors" ⟨2022, 12, 13, 14, 15, 16⟩ = "colors_2022-12-13-14h15" :=
  backup_final_name_format "colors" ["bar"] ⟨2022, 12, 13, 14, 15, 16⟩
    (by decide) (by decide) (by decide) (by decide) (by decide)

/-- Modelled from the spec: the 17 trailing characters demanded by the dated
name pattern, spelled as an explicit character sequence with digit slots. -/
def specDatedTail (t : List Char) : Prop :=
  ∃ y1 y2 y3 y4 mo1 mo2 d1 d2 h1 h2 mi1 mi2 : Char,
    (y1.isDigit = true ∧ y2.isDigit = true ∧ y3.isDigit = true ∧ y4.isDigit = true ∧
     mo1.isDigit = true ∧ mo2.isDigit = true ∧ d1.isDigit = true ∧ d2.isDigit = true ∧
     h1.isDigit = true ∧ h2.isDigit = true ∧ mi1.isDigit = true ∧ mi2.isDigit = true) ∧
    t = ['_', y1, y2, y3, y4, '-', mo1, mo2, '-', d1, d2, '-', h1, h2, 'h', mi1, mi2]

/-- Modelled from the spec: an entry is a candidate when it is a confirmed
directory and its name is a nonempty captured base equal to the source base
name followed by a dated tail. -/
def spec_is_candidate (e : BkDirEntry) (base : String) : Prop :=
  e.state = .dir ∧ base ≠ "" ∧ ∃ t, specDatedTail t ∧ e.name.data = base.data ++ t

/-- Helper: the executable tail test agrees with the spelled-out tail shape. -/
lemma datedSuffixMatch_iff (t : List Char) : datedSuffixMatch t = true ↔ specDatedTail t := by
  constructor
  · intro h
    rcases t with _ | ⟨c0, _ | ⟨y1, _ | ⟨y2, _ | ⟨y3, _ | ⟨y4, _ | ⟨c5, _ | ⟨mo1, _ |
      ⟨mo2, _ | ⟨c8, _ | ⟨d1, _ | ⟨d2, _ | ⟨c11, _ | ⟨h1, _ | ⟨h2, _ | ⟨c14, _ |
      ⟨mi1, _ | ⟨mi2, _ | ⟨x, rest⟩⟩⟩⟩⟩⟩⟩⟩⟩⟩⟩⟩⟩⟩⟩⟩⟩⟩ <;>
      simp only [datedSuffixMatch, Bool.and_eq_true, beq_iff_eq] at h
    all_goals try exact absurd h (by decide)
    simp only [and_assoc] at h
    obtain ⟨h0, hy1, hy2, hy3, hy4, h5, hmo1, hmo2, h8, hd1, hd2, h11, hh1, hh2, h14,
      hmi1, hmi2⟩ := h
    subst h0; subst h5; subst h8; subst h11; subst h14
    exact ⟨y1, y2, y3, y4, mo1, mo2, d1, d2, h1, h2, mi1, mi2,
      ⟨hy1, hy2, hy3, hy4, hmo1, hmo2, hd1, hd2, hh1, hh2, hmi1, hmi2⟩, rfl⟩
  · rintro ⟨y1, y2, y3, y4, mo1, mo2, d1, d2, h1, h2, mi1, mi2, hdig, rfl⟩
    obtain ⟨hy1, hy2, hy3, hy4, hmo1, hmo2, hd1, hd2, hh1, hh2, hmi1, hmi2⟩ := hdig
    simp [datedSuffixMatch, hy1, hy2, hy3, hy4, hmo1, hmo2, hd1, hd2, hh1, hh2, hmi1, hmi2]

/-- Helper: a list passing the tail test has exactly 17 characters. -/
lemma datedSuffixMatch_length (t : List Char) (h : datedSuffixMatch t = true) :
    t.length = 17 := by
  obtain ⟨y1, y2, y3, y4, mo1, mo2, d1, d2, h1, h2, mi1, mi2, hdig, rfl⟩ :=
    (datedSuffixMatch_iff t).mp h
  rfl

/-- Helper: only the dir state carries a directory bit through the link-aware
stat. -/
lemma symlinkMetadata_is_dir_iff (st : NodeState) :
    (symlinkMetadata st).is_dir = true ↔ st = .dir := by
  cases st <;> simp [symlinkMetadata]

/-- Helper: the regex capture on a name is a given string exactly when the
name splits as that string followed by a 17-character dated tail. -/
lemma datedNameCapture_eq_some (name cap : String) :
    datedNameCapture name = some cap
      ↔ ∃ t, datedSuffixMatch t = true ∧ name.data = cap.data ++ t := by
  constructor
  · intro h
    simp only [datedNameCapture] at h
    split at h
    · rename_i hcond
      obtain ⟨hlen, hmatch⟩ := hcond
      have hcap := Option.some.inj h
      refine ⟨name.data.drop (name.data.length - 17), hmatch, ?_⟩
      have hdata : cap.data = name.data.take (name.data.length - 17) := by
        rw [← hcap]
      rw [hdata]
      exact (List.take_append_drop _ _).symm
    · exact absurd h (by simp)
  · rintro ⟨t, hmatch, hname⟩
    have hlen : t.length = 17 := datedSuffixMatch_length t hmatch
    have hlen2 : name.data.length = cap.data.length + 17 := by
      rw [hname]; simp [hlen]
    have hsub : name.data.length - 17 = cap.data.length := by omega
    have hcond : 17 ≤ name.data.length ∧
        datedSuffixMatch (name.data.drop (name.data.length - 17)) = true := by
      refine ⟨by omega, ?_⟩
      rw [hsub, hname, List.drop_left]
      exact hmatch
    simp only [datedNameCapture]
    rw [if_pos hcond, hsub, hname, List.take_left]

/-- Helper: on a confirmed directory entry, the candidate test is the capture
comparison alone. -/
lemma is_candidate_of_dir (e : BkDirEntry) (base : String) (h : e.state = .dir) :
    is_candidate e base
      = (match datedNameCapture e.name with
        | some cap => cap == base
        | none => false) := by
  rcases e with ⟨nm, st⟩
  simp only at h
  subst h
  rfl

/-- Helper: an entry whose link-aware stat does not confirm a directory is
never a candidate. -/
lemma is_candidate_of_not_dir (e : BkDirEntry) (base : String)
    (h : (symlinkMetadata e.state).is_dir = false) :
    is_candidate e base = false := by
  unfold is_candidate
  rw [h]
  rfl

/-- Claim C6: for a nonempty source base name, an entry of the destination
listing is a candidate exactly when it is a confirmed directory whose name is
the base name followed by a dated tail, the captured base being nonempty as
the spec states the regex with a one-or-more capture. -/
theorem backup_candidate_characterization (e : BkDirEntry) (base : String)
    (hbase : base ≠ "") :
    is_candidate e base = true ↔ spec_is_candidate e base := by
  constructor
  · intro h
    cases hd : (symlinkMetadata e.state).is_dir
    · rw [is_candidate_of_not_dir e base hd] at h
      simp at h
    · have hstate : e.state = .dir := (symlinkMetadata_is_dir_iff e.state).mp hd
      rw [is_candidate_of_dir e base hstate] at h
      cases hcap : datedNameCapture e.name with
      | none => rw [hcap] at h; simp at h
      | some cap =>
        rw [hcap] at h
        have hcb : cap = base := by simpa using h
        subst hcb
        obtain ⟨t, hmatch, hname⟩ := (datedNameCapture_eq_some e.name cap).mp hcap
        exact ⟨hstate, hbase, t, (datedSuffixMatch_iff t).mp hmatch, hname⟩
  · rintro ⟨hstate, _, tl, htl, hname⟩
    have hmatch := (datedSuffixMatch_iff tl).mpr htl
    have hcap : datedNameCapture e.name = some base :=
      (datedNameCapture_eq_some e.name base).mpr ⟨tl, hmatch, hname⟩
    rw [is_candidate_of_dir e base hstate, hcap]
    simp

/-- Witness for claim C6: the valid candidate of the repository test suite. -/
theorem backup_candidate_characterization_witness :
    ("colors" : String) ≠ ""
    ∧ (is_candidate ⟨"colors_2022-08-09-10h11", .dir⟩ "colors" = true
        ↔ spec_is_candidate ⟨"colors_2022-08-09-10h11", .dir⟩ "colors") :=
  ⟨by decide, backup_candidate_characterization ⟨"colors_2022-08-09-10h11", .dir⟩ "colors"
    (by decide)⟩

end Backup
